import Mathlib

/- Verification of the rustd library: the two algebraic types of
   src/option.ts and src/result.ts, together with the closure-based draft
   implementation of Option kept in the repository. The embedding tracks
   the JavaScript runtime facts the code depends on: the distinguished
   values null and undefined, the loose comparison with undefined used by
   every guard, and the nullish coalescing operator. A panic is modelled
   as the error branch of Except, carrying the diagnostic string. -/

set_option autoImplicit false

namespace Rustd

/-- A JavaScript value of payload type α: undefined, null, or a proper value. -/
inductive JSVal (α : Type) where
  | undef
  | null
  | defined (v : α)
  deriving DecidableEq

/-- The guard written as value == undefined in the source: JavaScript loose
equality with undefined holds exactly on null and undefined. -/
def JSVal.isNullish {α : Type} : JSVal α → Bool
  | .undef => true
  | .null => true
  | .defined _ => false

/-- The JavaScript nullish coalescing operator, a ?? b. -/
def JSVal.coalesce {α : Type} (a b : JSVal α) : JSVal α :=
  if a.isNullish then b else a

/-- JavaScript loose equality between a slot content and a proper value x:
null == x and undefined == x are false when x is a proper value. -/
def JSVal.looseEq {α : Type} [DecidableEq α] : JSVal α → α → Bool
  | .defined v, x => decide (v = x)
  | _, _ => false

/-- The observable state of an Optional, as the data model describes it:
the slot is absent or holds exactly one value. -/
inductive OptState (α : Type) where
  | absent
  | present (v : α)
  deriving DecidableEq

/-- The Result class of src/result.ts: a tagged union of an Ok shape holding
a value and an Err shape holding an error. -/
inductive ResultTS (τ ε : Type) where
  | ok (v : τ)
  | err (e : ε)
  deriving DecidableEq

/- An Option object of src/option.ts is identified with the content of its
   single private slot, value?: T, which at runtime holds undefined (the
   None constructor and takes), null or a proper value: a JSVal. -/
namespace OptionTS

/-- Option.Some: the constructor stores the given JavaScript value in the slot. -/
def Some {α : Type} (value : JSVal α) : JSVal α := value

/-- Option.None: the constructor leaves the slot undefined. -/
def None {α : Type} : JSVal α := JSVal.undef

/-- Option.isSome: the source tests value != undefined with loose inequality. -/
def isSome {α : Type} (o : JSVal α) : Bool := !o.isNullish

/-- Option.isNone: the negation of isSome. -/
def isNone {α : Type} (o : JSVal α) : Bool := !isSome o

/-- Option.contains: isSome and the slot compares loosely equal to x. -/
def contains {α : Type} [DecidableEq α] (o : JSVal α) (x : α) : Bool :=
  isSome o && o.looseEq x

/-- Option.expect: panic with exactly msg when the slot compares loosely
equal to undefined, otherwise return the held value. -/
def expect {α : Type} (o : JSVal α) (msg : String) : Except String α :=
  match o with
  | .defined v => Except.ok v
  | _ => Except.error msg

/-- Option.unwrap: expect with the fixed diagnostic message. -/
def unwrap {α : Type} (o : JSVal α) : Except String α :=
  expect o "called `Option.unwrap()` on a `None` value"

/-- Option.unwrapOr: the source returns value ?? defaultValue. -/
def unwrapOr {α : Type} (o : JSVal α) (defaultValue : JSVal α) : JSVal α :=
  o.coalesce defaultValue

/-- Option.map: None when the slot is nullish, otherwise an Option whose slot
holds whatever f returns (which may itself be a nullish value). -/
def map {α β : Type} (f : α → JSVal β) (o : JSVal α) : JSVal β :=
  match o with
  | .defined v => f v
  | _ => JSVal.undef

/-- Option.mapOr: the source literally composes map with unwrapOr. -/
def mapOr {α β : Type} (defaultValue : JSVal β) (f : α → JSVal β) (o : JSVal α) : JSVal β :=
  unwrapOr (map f o) defaultValue

/-- Option.mapOrElse: calls the default thunk when the slot is nullish,
otherwise returns f applied to the held value directly. -/
def mapOrElse {α β : Type} (defaultValue : Unit → JSVal β) (f : α → JSVal β)
    (o : JSVal α) : JSVal β :=
  match o with
  | .defined v => f v
  | _ => defaultValue ()

/- The mutating methods are modelled state-passing style: each takes the
   current slot content and returns the pair of the method result and the
   slot content after the call. -/

/-- Option.insert: overwrite the slot and return the stored value. -/
def insert {α : Type} (value : α) (o : JSVal α) : α × JSVal α :=
  (value, JSVal.defined value)

/-- Option.getOrInsert: insert when the slot is nullish, otherwise return the
held value and leave the slot as it was. -/
def getOrInsert {α : Type} (value : α) (o : JSVal α) : α × JSVal α :=
  match o with
  | .defined v => (v, o)
  | _ => insert value o

/-- Option.take: return a fresh Option built from the old slot and reset the
receiver slot to undefined. -/
def take {α : Type} (o : JSVal α) : JSVal α × JSVal α :=
  (o, JSVal.undef)

/-- Option.replace: return a fresh Option built from the old slot and store
the given value in the receiver slot. -/
def replace {α : Type} (value : α) (o : JSVal α) : JSVal α × JSVal α :=
  (o, JSVal.defined value)

/-- Option.zipWith of src/option.ts: None when either slot is nullish,
otherwise Some of f applied to the two held values. -/
def zipWith {α β γ : Type} (f : α → β → γ) (o : JSVal α) (other : JSVal β) : JSVal γ :=
  match o, other with
  | .defined v, .defined w => JSVal.defined (f v w)
  | _, _ => JSVal.undef

/-- Option.transpose of src/option.ts: a nullish slot goes to Ok(None);
Some(Ok(v)) goes to Ok(Some(v)); Some(Err(e)) goes to Err(e). -/
def transpose {α ε : Type} (o : JSVal (ResultTS α ε)) : ResultTS (JSVal α) ε :=
  match o with
  | .defined (.ok v) => ResultTS.ok (JSVal.defined v)
  | .defined (.err e) => ResultTS.err e
  | _ => ResultTS.ok JSVal.undef

/-- The slot state abstraction of the data model: a nullish slot is the
absent state, a proper slot is the present state. -/
def state {α : Type} : JSVal α → OptState α
  | .defined v => OptState.present v
  | _ => OptState.absent

end OptionTS

/-- What the payload of an Option slot looks like to Option.flatten: either a
plain value or a further Option object, discriminated by instanceof Option. -/
inductive OptPayload (α : Type) where
  | plain (a : α)
  | nested (slot : JSVal (OptPayload α))

/-- Option.flatten of src/option.ts: when the slot holds an Option object the
method returns that inner Option, otherwise it returns a fresh Option built
from the same slot content. -/
def OptionTS.flatten {α : Type} : JSVal (OptPayload α) → JSVal (OptPayload α)
  | .defined (.nested inner) => inner
  | o => o

namespace ResultTS

/-- Result.isOk: the tag comparison of the source. -/
def isOk {τ ε : Type} : ResultTS τ ε → Bool
  | .ok _ => true
  | .err _ => false

/-- Result.isErr: the negation of isOk. -/
def isErr {τ ε : Type} (r : ResultTS τ ε) : Bool := !isOk r

/-- Result.and: on Ok return the other result, on Err rebuild Err with the
same error payload. -/
def and {τ υ ε : Type} (r : ResultTS τ ε) (res : ResultTS υ ε) : ResultTS υ ε :=
  match r with
  | .ok _ => res
  | .err e => ResultTS.err e

/-- Result.andThen: on Ok apply op to the held value, on Err rebuild Err with
the same error payload. -/
def andThen {τ υ ε : Type} (r : ResultTS τ ε) (op : τ → ResultTS υ ε) : ResultTS υ ε :=
  match r with
  | .ok v => op v
  | .err e => ResultTS.err e

/-- Result.expect: on Err, panic with the caller string, a colon and a space,
and the textual rendering of the error payload. The rendering function sE
stands for the template literal interpolation of the source. -/
def expect {τ ε : Type} (sE : ε → String) (r : ResultTS τ ε) (msg : String) :
    Except String τ :=
  match r with
  | .ok v => Except.ok v
  | .err e => Except.error (msg ++ ": " ++ sE e)

/-- Result.unwrap: on Err, panic with the fixed text followed by the textual
rendering of the error payload. -/
def unwrap {τ ε : Type} (sE : ε → String) (r : ResultTS τ ε) : Except String τ :=
  match r with
  | .ok v => Except.ok v
  | .err e => Except.error ("called `Result.unwrap()` on an `Err` value: " ++ sE e)

/-- Result.expectErr: on Ok, panic with the caller string, a colon and a
space, and the textual rendering of the success payload. -/
def expectErr {τ ε : Type} (sT : τ → String) (r : ResultTS τ ε) (msg : String) :
    Except String ε :=
  match r with
  | .ok v => Except.error (msg ++ ": " ++ sT v)
  | .err e => Except.ok e

/-- Result.unwrapErr: on Ok, panic with the fixed text followed by the
textual rendering of the success payload. -/
def unwrapErr {τ ε : Type} (sT : τ → String) (r : ResultTS τ ε) : Except String ε :=
  match r with
  | .ok v => Except.error ("called `Result::unwrap_err()` on an `Ok` value: " ++ sT v)
  | .err e => Except.ok e

/-- Result.transpose of src/result.ts: Ok of a None-observing Option (nullish
slot) goes to None; Ok of a present Option goes to Some(Ok(v)); Err(e) goes
to Some(Err(e)). -/
def transpose {τ ε : Type} (r : ResultTS (JSVal τ) ε) : JSVal (ResultTS τ ε) :=
  match r with
  | .ok (.defined v) => JSVal.defined (ResultTS.ok v)
  | .ok _ => JSVal.undef
  | .err e => JSVal.defined (ResultTS.err e)

/-- Equality of two Results in tag and payload, where the Ok payloads are
Optionals and are compared by their observable slot state. -/
def stateEq {α ε : Type} (a b : ResultTS (JSVal α) ε) : Prop :=
  match a, b with
  | .ok s, .ok t => OptionTS.state s = OptionTS.state t
  | .err e, .err f => e = f
  | _, _ => False

end ResultTS

/-- What the payload of an Ok value looks like to Result.flatten: either a
plain value or a further Result object, discriminated by instanceof Result. -/
inductive ResPayload (τ ε : Type) where
  | plain (t : τ)
  | nested (inner : ResultTS (ResPayload τ ε) ε)

/-- Result.flatten of src/result.ts: when the tag is Ok and the payload is a
Result object the method returns that inner Result, otherwise it returns a
fresh Result carrying the same tag and payload. -/
def ResultTS.flatten {τ ε : Type} :
    ResultTS (ResPayload τ ε) ε → ResultTS (ResPayload τ ε) ε
  | .ok (.nested r) => r
  | x => x

/-- resultify of src/result.ts: run the wrapped computation; a normal return
value r becomes Ok(r) and any thrown value e is caught and becomes Err(e). -/
def resultify {α θ ρ : Type} (f : α → Except θ ρ) : α → ResultTS ρ θ :=
  fun a =>
    match f a with
    | .ok r => ResultTS.ok r
    | .error e => ResultTS.err e

/- The draft closure-based implementation of Option kept in the repository
   (the unnamed source file). Its state is the captured variable value, again
   a JSVal; only the methods that differ from src/option.ts are embedded. -/
namespace OptionImpl

/-- Draft insert: assign the captured variable and return it. -/
def insert {α : Type} (newValue : JSVal α) (slot : JSVal α) : JSVal α × JSVal α :=
  (newValue, newValue)

/-- Draft getOrInsert: its parameter is also named value and shadows the
captured slot, so the guard tests the argument and the slot is never read. -/
def getOrInsert {α : Type} (value : JSVal α) (slot : JSVal α) : JSVal α × JSVal α :=
  if value.isNullish then insert value slot else (value, slot)

/-- Draft zipWith: the guard reads value == undefined or
other.isNone() == undefined; the second disjunct compares a boolean with
undefined and is always false, after which the body calls other.unwrap(),
which panics when other is absent. -/
def zipWith {α β γ : Type} (f : α → β → γ) (o : JSVal α) (other : JSVal β) :
    Except String (JSVal γ) :=
  match o with
  | .defined v =>
      match OptionTS.unwrap other with
      | .ok w => Except.ok (JSVal.defined (f v w))
      | .error m => Except.error m
  | _ => Except.ok JSVal.undef

end OptionImpl

/- Development lemmas: the src/option.ts versions of the two methods whose
   draft counterparts misbehave. -/

/-- The zipWith of src/option.ts is total and never panics: both slots proper
gives Some of the combination, and any nullish slot gives None. -/
theorem OptionTS.zipWith_cases {α β γ : Type} (f : α → β → γ) (a : JSVal α)
    (b : JSVal β) (v : α) (w : β) :
    OptionTS.zipWith f (JSVal.defined v) (JSVal.defined w) = JSVal.defined (f v w)
    ∧ OptionTS.zipWith f a JSVal.undef = JSVal.undef
    ∧ OptionTS.zipWith f a JSVal.null = JSVal.undef
    ∧ OptionTS.zipWith f JSVal.undef b = JSVal.undef
    ∧ OptionTS.zipWith f JSVal.null b = JSVal.undef := by
  refine ⟨rfl, ?_, ?_, ?_, ?_⟩ <;> cases a <;> cases b <;> rfl

/-- The getOrInsert of src/option.ts follows its documentation: an absent
slot (undefined or null) is filled with the argument and the argument is
returned; a present slot is untouched and its value is returned. -/
theorem OptionTS.getOrInsert_cases {α : Type} (x v : α) :
    OptionTS.getOrInsert x (JSVal.defined v) = (v, JSVal.defined v)
    ∧ OptionTS.getOrInsert x (JSVal.undef : JSVal α) = (x, JSVal.defined x)
    ∧ OptionTS.getOrInsert x (JSVal.null : JSVal α) = (x, JSVal.defined x) :=
  ⟨rfl, rfl, rfl⟩

/-- Claim C1, amended: for every proper (non-nullish) payload v, Some(v)
observes present and not absent, None observes absent, and every Option
observes exactly one of the two states; a Some built from the payload null
or undefined observes as absent, not present. -/
theorem claim_C1_amended {α : Type} :
    (∀ v : α, OptionTS.isSome (OptionTS.Some (JSVal.defined v)) = true
      ∧ OptionTS.isNone (OptionTS.Some (JSVal.defined v)) = false)
    ∧ OptionTS.isSome (OptionTS.None : JSVal α) = false
    ∧ (∀ o : JSVal α,
        (OptionTS.isSome o = true ∧ OptionTS.isNone o = false)
        ∨ (OptionTS.isSome o = false ∧ OptionTS.isNone o = true)) := by
  refine ⟨fun v => ⟨rfl, rfl⟩, rfl, fun o => ?_⟩
  cases o
  case undef => exact Or.inr ⟨rfl, rfl⟩
  case null => exact Or.inr ⟨rfl, rfl⟩
  case defined v => exact Or.inl ⟨rfl, rfl⟩

/-- Claim C1, counterexample: the claim demands isPresent() == true for the
payload null, but the slot built by Some(null) fails the value != undefined
guard, so isSome returns false. -/
theorem claim_C1_counterexample :
    OptionTS.isSome (OptionTS.Some (JSVal.null : JSVal Nat)) = false := rfl

/-- Claim C2: composing Result.transpose with Option.transpose returns a
Result equal to the original in tag and payload, the Ok payload being
compared as an Optional state (absent or present of a value). -/
theorem claim_C2 {α ε : Type} (x : ResultTS (JSVal α) ε) :
    ResultTS.stateEq (OptionTS.transpose (ResultTS.transpose x)) x := by
  cases x with
  | ok s =>
      cases s <;>
        simp [ResultTS.transpose, OptionTS.transpose, ResultTS.stateEq,
          OptionTS.state]
  | err e =>
      simp [ResultTS.transpose, OptionTS.transpose, ResultTS.stateEq]

/-- Claim C3: Option.expect on an absent slot panics with exactly the caller
string; Result.expect on Err and Result.expectErr on Ok panic with the
caller string, a colon and a space, and the rendered payload; Result.unwrap
and Result.unwrapErr panic with a message embedding the rendered payload. -/
theorem claim_C3 {α τ ε : Type} :
    (∀ msg : String, OptionTS.expect (JSVal.undef : JSVal α) msg = Except.error msg)
    ∧ (∀ msg : String, OptionTS.expect (JSVal.null : JSVal α) msg = Except.error msg)
    ∧ (∀ (sE : ε → String) (e : ε) (msg : String),
        ResultTS.expect sE (ResultTS.err e : ResultTS τ ε) msg
          = Except.error (msg ++ ": " ++ sE e))
    ∧ (∀ (sT : τ → String) (v : τ) (msg : String),
        ResultTS.expectErr sT (ResultTS.ok v : ResultTS τ ε) msg
          = Except.error (msg ++ ": " ++ sT v))
    ∧ (∀ (sE : ε → String) (e : ε),
        ResultTS.unwrap sE (ResultTS.err e : ResultTS τ ε)
          = Except.error ("called `Result.unwrap()` on an `Err` value: " ++ sE e))
    ∧ (∀ (sT : τ → String) (v : τ),
        ResultTS.unwrapErr sT (ResultTS.ok v : ResultTS τ ε)
          = Except.error ("called `Result::unwrap_err()` on an `Ok` value: " ++ sT v)) :=
  ⟨fun _ => rfl, fun _ => rfl, fun _ _ _ => rfl, fun _ _ _ => rfl,
    fun _ _ => rfl, fun _ _ => rfl⟩

/-- Claim C4, divergence: the draft zipWith of the unnamed source file,
applied to a present Option and an absent one, panics instead of returning
None, because its guard compares other.isNone() with undefined (always
false) and it then unwraps the absent argument. -/
theorem claim_C4_divergence :
    OptionImpl.zipWith (fun x y : Nat => x + y) (JSVal.defined 17) JSVal.undef
      = Except.error "called `Option.unwrap()` on a `None` value" := rfl

/-- Claim C5, divergence: the draft getOrInsert of the unnamed source file
shadows the slot with its parameter, so on a present slot Some(5) the call
getOrInsert(9) returns 9 instead of the held 5, and on an absent slot it
returns 9 but leaves the slot absent instead of inserting. -/
theorem claim_C5_divergence :
    OptionImpl.getOrInsert (JSVal.defined 9) (JSVal.defined (5 : Nat))
        = (JSVal.defined 9, JSVal.defined 5)
    ∧ OptionImpl.getOrInsert (JSVal.defined 9) (JSVal.undef : JSVal Nat)
        = (JSVal.defined 9, JSVal.undef) :=
  ⟨rfl, rfl⟩

/-- Claim C6: Result.andThen short-circuits on Err without consulting the
continuation and returns an Err carrying the same payload for every
continuation; on Ok it returns the continuation applied to the value; the
documented chain Ok(2) squared twice unwraps to 16. -/
theorem claim_C6 {τ υ ε : Type} :
    (∀ (e : ε) (f : τ → ResultTS υ ε),
        ResultTS.andThen (ResultTS.err e) f = ResultTS.err e)
    ∧ (∀ (v : τ) (f : τ → ResultTS υ ε),
        ResultTS.andThen (ResultTS.ok v) f = f v)
    ∧ ResultTS.unwrap (fun e : String => e)
        (ResultTS.andThen
          (ResultTS.andThen (ResultTS.ok 2 : ResultTS Nat String)
            (fun x : Nat => ResultTS.ok (x * x)))
          (fun x : Nat => ResultTS.ok (x * x)))
        = Except.ok 16 :=
  ⟨fun _ _ => rfl, fun _ _ => rfl, rfl⟩

/-- Claim C7: both flattens remove exactly one nesting level and re-wrap
otherwise. Option.flatten returns the inner slot whenever the payload is an
Option object (so present(present(v)) gives present(v) and present(absent)
gives absent), keeps an absent slot absent, and keeps a plain payload
unchanged; Result.flatten unwraps Ok of a nested Result to that Result and
returns the same tag and payload in every other case. -/
theorem claim_C7 {α τ ε : Type} :
    (∀ inner : JSVal (OptPayload α),
        OptionTS.flatten (JSVal.defined (OptPayload.nested inner)) = inner)
    ∧ OptionTS.flatten (JSVal.undef : JSVal (OptPayload α)) = JSVal.undef
    ∧ OptionTS.flatten (JSVal.null : JSVal (OptPayload α)) = JSVal.null
    ∧ (∀ a : α, OptionTS.flatten (JSVal.defined (OptPayload.plain a))
        = JSVal.defined (OptPayload.plain a))
    ∧ (∀ r : ResultTS (ResPayload τ ε) ε,
        ResultTS.flatten (ResultTS.ok (ResPayload.nested r)) = r)
    ∧ (∀ t : τ, ResultTS.flatten (ResultTS.ok (ResPayload.plain t) : ResultTS (ResPayload τ ε) ε)
        = ResultTS.ok (ResPayload.plain t))
    ∧ (∀ e : ε, ResultTS.flatten (ResultTS.err e : ResultTS (ResPayload τ ε) ε)
        = ResultTS.err e) :=
  ⟨fun _ => rfl, rfl, rfl, fun _ => rfl, fun _ => rfl, fun _ => rfl, fun _ => rfl⟩

/-- Claim C8: take returns a fresh Option holding exactly the previous slot
and resets the receiver to absent; replace returns a fresh Option holding
the previous slot and sets the receiver to present of the argument; in
particular for present(2), after take the receiver observes absent and the
returned Option contains 2. -/
theorem claim_C8 {α : Type} :
    (∀ o : JSVal α, OptionTS.take o = (o, JSVal.undef))
    ∧ (∀ (o : JSVal α) (x : α), OptionTS.replace x o = (o, JSVal.defined x))
    ∧ OptionTS.isNone (OptionTS.take (JSVal.defined (2 : Nat))).2 = true
    ∧ OptionTS.contains (OptionTS.take (JSVal.defined (2 : Nat))).1 2 = true :=
  ⟨fun _ => rfl, fun _ _ => rfl, rfl, by decide⟩

/-- Claim C9: the function produced by resultify is total (it returns a
Result, never a panic); when the wrapped computation returns r normally the
call returns Ok(r), and when it throws any value e the call returns Err of
exactly that value. -/
theorem claim_C9 {α θ ρ : Type} (f : α → Except θ ρ) (a : α) :
    (∀ r : ρ, f a = Except.ok r → resultify f a = ResultTS.ok r)
    ∧ (∀ e : θ, f a = Except.error e → resultify f a = ResultTS.err e) := by
  constructor
  · intro r h
    simp [resultify, h]
  · intro e h
    simp [resultify, h]

theorem claim_C9_witness :
    resultify (fun n : Nat => if n = 0 then Except.error "boom" else Except.ok (n + 1)) 0
      = ResultTS.err "boom" :=
  (claim_C9 (fun n : Nat => if n = 0 then Except.error "boom" else Except.ok (n + 1)) 0).2
    "boom" rfl

/-- Claim C10: mapOr is literally map followed by unwrapOr, so on a present
receiver whose mapper result is nullish it falls back to the default, while
mapOrElse returns the mapper result as is; the two folds agree on absent
receivers and on present receivers with a proper mapper result. -/
theorem claim_C10 {α β : Type} (v : α) (f : α → JSVal β) (d : JSVal β) :
    (∀ o : JSVal α, OptionTS.mapOr d f o = OptionTS.unwrapOr (OptionTS.map f o) d)
    ∧ ((f v).isNullish = true → OptionTS.mapOr d f (JSVal.defined v) = d)
    ∧ OptionTS.mapOrElse (fun _ => d) f (JSVal.defined v) = f v
    ∧ ((f v).isNullish = false → OptionTS.mapOr d f (JSVal.defined v) = f v)
    ∧ (∀ o : JSVal α, o.isNullish = true
        → OptionTS.mapOr d f o = OptionTS.mapOrElse (fun _ => d) f o) := by
  refine ⟨fun _ => rfl, ?_, rfl, ?_, ?_⟩
  · intro h
    simp [OptionTS.mapOr, OptionTS.unwrapOr, OptionTS.map, JSVal.coalesce, h]
  · intro h
    simp [OptionTS.mapOr, OptionTS.unwrapOr, OptionTS.map, JSVal.coalesce, h]
  · intro o h
    cases o with
    | undef => rfl
    | null => rfl
    | defined w => simp [JSVal.isNullish] at h

theorem claim_C10_witness :
    OptionTS.mapOr (JSVal.defined 7) (fun _ : Nat => (JSVal.null : JSVal Nat))
        (JSVal.defined 0) = JSVal.defined 7
    ∧ OptionTS.mapOrElse (fun _ => JSVal.defined 7)
        (fun _ : Nat => (JSVal.null : JSVal Nat)) (JSVal.defined 0) = JSVal.null :=
  ⟨(claim_C10 0 (fun _ => (JSVal.null : JSVal Nat)) (JSVal.defined 7)).2.1 rfl,
    (claim_C10 0 (fun _ => (JSVal.null : JSVal Nat)) (JSVal.defined 7)).2.2.1⟩

end Rustd
